import Mathlib

/-!
Shallow embedding of `csae_pyutils/__init__.py` (functions `load_json`,
`gsheet_to_df`, `upload_files_to_owncloud`) and verification of its
specification.  External effects (file system, HTTP, the ownCloud client,
the JSON parser) are modelled as explicit oracle parameters; observable
effects (HTTP requests issued, ownCloud calls performed, objects present
on the remote endpoint) are returned as explicit traces and state.
-/

set_option autoImplicit false

/-! ### String helpers

Python's `str.split` / `os.path.split` are modelled at the character-list
level by structural recursion so that every definition evaluates in the
kernel. -/

/-- Split a list of characters at every occurrence of the separator `c`,
like Python's `str.split(c)`: `splitChar ',' "a,b" = ["a", "b"]`, with
empty pieces kept (`"a,"` gives `["a", ""]`). -/
def splitChar (c : Char) : List Char → List (List Char)
  | [] => [[]]
  | a :: as =>
    if a = c then
      [] :: splitChar c as
    else
      match splitChar c as with
      | [] => [[a]]
      | g :: gs => (a :: g) :: gs

/-- String-level wrapper of `splitChar`. -/
def split_on_char (c : Char) (s : String) : List String :=
  (splitChar c s.toList).map (fun l => ⟨l⟩)

/-- The tail component of `os.path.split(x)`: the substring after the last
`/` (POSIX semantics), i.e. the basename of the path. -/
def path_tail (x : String) : String :=
  (split_on_char '/' x).getLastD x

/-! ### `load_json`

```python
def load_json(file_path: str, encoding="utf-8") -> dict:
    with open(file_path, "r", encoding=encoding) as fp:
        data = json.load(fp)
    return data
```

`open` may raise (file missing / unreadable), reading may raise a decode
error (wrong encoding) and `json.load` may raise a parse error; all
propagate to the caller.  The file system is the oracle
`fs : path → Option bytes` (`none` models an `open` failure: missing or
unreadable path), text decoding is the oracle
`dec : bytes → encoding → Option text` (`none` models a decode error) and
the standard-library JSON parser is the oracle
`parse : text → Option Json` (`none` models a syntax error).  Per the
spec's error taxonomy, an `open` failure signals `notFound` and a decode
or parse failure signals `parseError`. -/

/-- Parsed JSON values.  Objects are ordered association lists, so the
top-level key order of the source text is part of the value. -/
inductive Json where
  | null
  | bool (b : Bool)
  | num (n : Int)
  | str (s : String)
  | arr (xs : List Json)
  | obj (kvs : List (String × Json))

/-- The error taxonomy of the spec for `load_json`. -/
inductive LoadErr where
  | notFound
  | parseError
deriving DecidableEq

/-- Embedding of `load_json`.  `fs` is the file system, `dec` the text
decoder, `parse` the JSON parser; `encoding` has no default here, the
Python default is `"utf-8"`.  Every failure of an external call
propagates; the parsed value is returned unmodified. -/
def load_json (fs : String → Option (List Nat))
    (dec : List Nat → String → Option String)
    (parse : String → Option Json)
    (file_path : String) (encoding : String) : Except LoadErr Json :=
  match fs file_path with
  | none => .error .notFound
  | some bytes =>
    match dec bytes encoding with
    | none => .error .parseError
    | some text =>
      match parse text with
      | none => .error .parseError
      | some data => .ok data

/-! ### `gsheet_to_df`

```python
def gsheet_to_df(sheet_id: str) -> pd.DataFrame:
    GDRIVE_BASE_URL = "https://docs.google.com/spreadsheet/ccc?key="
    url = f"{GDRIVE_BASE_URL}{sheet_id}&output=csv"
    r = requests.get(url)
    print(r.status_code)
    data = r.content
    df = pd.read_csv(BytesIO(data))
    return df
```

HTTP is the oracle `http : url → HttpResponse`; the second component of
the result is the trace of URLs fetched, one entry per `requests.get`
performed.  The status code is only printed, never inspected. -/

/-- An HTTP response: status code and body (the body is modelled as the
decoded text of `r.content`). -/
structure HttpResponse where
  status_code : Nat
  content : String

/-- A cell of a parsed CSV table: integer when the whole column parses as
integers (pandas' column typing), raw string otherwise. -/
inductive Cell where
  | int (n : Int)
  | str (s : String)

/-- A pandas `DataFrame` as produced by `pd.read_csv`: column names from
the first content line, then the data rows, cells typed best-effort. -/
structure DataFrame where
  columns : List String
  rows : List (List Cell)

/-- The pandas error relevant here: `pd.errors.EmptyDataError`
("No columns to parse from file"). -/
inductive PdError where
  | emptyData
deriving DecidableEq

/-- Best-effort integer parse of one CSV cell: an optional minus sign
followed by at least one decimal digit. -/
def cell_int? (s : String) : Option Int :=
  let digits : List Char → Option Nat := fun l =>
    if l = [] then none
    else l.foldlM (fun acc c => if c.isDigit then some (acc * 10 + (c.toNat - 48)) else none) 0
  match s.toList with
  | '-' :: rest => (digits rest).map (fun n => -(n : Int))
  | l => (digits l).map (fun n => (n : Int))

/-- Whether every cell of column `j` parses as an integer; pandas types a
column `int64` exactly when all of its values do. -/
def col_is_int (rows : List (List String)) (j : Nat) : Bool :=
  rows.all (fun r => (cell_int? (r.getD j "")).isSome)

/-- Apply pandas' column typing to the raw string rows. -/
def type_rows (rows : List (List String)) : List (List Cell) :=
  rows.map (fun r =>
    r.enum.map (fun p =>
      if col_is_int rows p.1 then
        match cell_int? p.2 with
        | some n => Cell.int n
        | none => Cell.str p.2
      else
        Cell.str p.2))

/-- The newline character. -/
def newline : Char := '\n'

/-- The non-blank lines of the body; pandas skips blank lines
(`skip_blank_lines=True` by default) and takes the header from the first
remaining line. -/
def csv_lines (s : String) : List String :=
  (split_on_char newline s).filter (fun l => l ≠ "")

/-- Modelled from pandas: `pd.read_csv` on a plain comma-separated body.
Raises `EmptyDataError` exactly when no line remains to provide columns;
a header-only body yields a `DataFrame` with zero rows. -/
def pd_read_csv (s : String) : Except PdError DataFrame :=
  match csv_lines s with
  | [] => .error .emptyData
  | header :: rest =>
    .ok ⟨split_on_char ',' header, type_rows (rest.map (split_on_char ','))⟩

/-- The fixed Google Drive base URL of the source. -/
def GDRIVE_BASE_URL : String := "https://docs.google.com/spreadsheet/ccc?key="

/-- The download URL built by `gsheet_to_df` for a sheet id. -/
def gsheet_url (sheet_id : String) : String :=
  GDRIVE_BASE_URL ++ sheet_id ++ "&output=csv"

/-- Embedding of `gsheet_to_df`.  Returns the parse result of the body
together with the trace of URLs requested (one entry per `requests.get`).
`print(r.status_code)` is a diagnostic only and has no other effect. -/
def gsheet_to_df (http : String → HttpResponse) (sheet_id : String) :
    Except PdError DataFrame × List String :=
  let url := gsheet_url sheet_id
  let r := http url
  let data := r.content
  (pd_read_csv data, [url])

/-! ### `upload_files_to_owncloud`

```python
def upload_files_to_owncloud(file_list: list, user: str, pw: str, folder="pfp-data"):
    collection = folder
    oc = owncloud.Client("https://oeawcloud.oeaw.ac.at")
    oc.login(user, pw)
    try:
        oc.mkdir(collection)
    except:  # noqa: E722
        pass
    files = file_list
    for x in files:
        _, tail = os.path.split(x)
        owncloud_name = f"{collection}/{tail}"
        print(f"uploading {tail} to {owncloud_name}")
        result = oc.put_file(owncloud_name, x)
    return result
```

The ownCloud client is the oracle `OcBehavior`: each call either raises
(`Except.error`) or succeeds.  The embedding additionally returns the
trace of client calls performed (in order) and the remote state, modelled
as the list of object names present on the endpoint: a successful
`put_file` adds its remote name, a failed call and `mkdir` leave it
unchanged (the remote collection itself is not tracked, no claim needs
it).  `folder` has no default here, the Python default is `"pfp-data"`.
If the loop body never runs, `return result` raises
`UnboundLocalError`, modelled by the outcome `unboundLocal`. -/

/-- Outcome of a Python call: normal return, a propagated exception, or
the `UnboundLocalError` raised by `return result` when `result` was never
bound. -/
inductive PyOutcome (ε ρ : Type) where
  | ok (r : ρ)
  | raised (e : ε)
  | unboundLocal

/-- One observable ownCloud client call. -/
inductive OcEvent where
  | login (user pw : String)
  | mkdir (name : String)
  | put (remote_name local_path : String)

/-- Oracle for the outcomes of the ownCloud client calls: `ε` is the type
of exceptions the client may raise, `ρ` the type of `put_file` results. -/
structure OcBehavior (ε ρ : Type) where
  login : String → String → Except ε Unit
  mkdir : String → Except ε Unit
  put_file : String → String → Except ε ρ

/-- The remote object name derived for a local path:
`f"{collection}/{tail}"` with `tail` the basename of the path. -/
def owncloud_name (collection x : String) : String :=
  collection ++ "/" ++ path_tail x

/-- The `put` trace event of one loop iteration for local path `x`. -/
def put_event (collection x : String) : OcEvent :=
  .put (owncloud_name collection x) x

/-- Effect of a successful `put_file` on the remote endpoint: the object
name is now present (putting an existing name overwrites it). -/
def remote_after_put (name : String) (remote : List String) : List String :=
  if name ∈ remote then remote else remote ++ [name]

/-- The Python `return result` at the end of the function: raises
`UnboundLocalError` when the loop never bound `result`. -/
def return_result {ε ρ : Type} : Option ρ → PyOutcome ε ρ
  | none => .unboundLocal
  | some r => .ok r

/-- The `for x in files` loop: derive the remote name, print a diagnostic
(no modelled effect), `put_file`, rebind `result`; a raised exception
propagates immediately.  `tr` is the call trace so far and `remote` the
remote state. -/
def put_loop {ε ρ : Type} (put : String → String → Except ε ρ)
    (collection : String) (files : List String) (result : Option ρ)
    (tr : List OcEvent) (remote : List String) :
    PyOutcome ε ρ × List OcEvent × List String :=
  match files with
  | [] => (return_result result, tr, remote)
  | x :: rest =>
    match put (owncloud_name collection x) x with
    | .error e => (.raised e, tr ++ [put_event collection x], remote)
    | .ok r =>
      put_loop put collection rest (some r) (tr ++ [put_event collection x])
        (remote_after_put (owncloud_name collection x) remote)

/-- Embedding of `upload_files_to_owncloud`.  `b` is the client oracle,
`remote0` the initial remote state; the result is the outcome together
with the trace of client calls and the final remote state.  A `login`
failure propagates before anything else happens; the `mkdir` outcome is
discarded by the bare `except: pass`. -/
def upload_files_to_owncloud {ε ρ : Type} (b : OcBehavior ε ρ)
    (file_list : List String) (user pw : String) (folder : String)
    (remote0 : List String) :
    PyOutcome ε ρ × List OcEvent × List String :=
  let collection := folder
  match b.login user pw with
  | .error e => (.raised e, [.login user pw], remote0)
  | .ok _ =>
    let _ := b.mkdir collection
    put_loop b.put_file collection file_list none
      [.login user pw, .mkdir collection] remote0

/-! ### Helper lemmas -/

/-- When login succeeds, the function reaches the upload loop with the
login and (suppressed) mkdir attempts already in the trace. -/
theorem upload_unfold_ok {ε ρ : Type} (b : OcBehavior ε ρ)
    (file_list : List String) (user pw folder : String) (remote0 : List String)
    (h : b.login user pw = .ok ()) :
    upload_files_to_owncloud b file_list user pw folder remote0 =
      put_loop b.put_file folder file_list none
        [.login user pw, .mkdir folder] remote0 := by
  unfold upload_files_to_owncloud
  rw [h]

/-! ### Claims about `load_json` -/

/-- C7: for every path, `load_json` signals `NotFound` when the path does
not exist or is unreadable (the `open` oracle fails), and `ParseError`
when the content is not valid structured data (decode failure — wrong
encoding — or parse failure); it returns an error, never a value, in each
of these cases. -/
theorem load_json_failure_cases
    (fs : String → Option (List Nat)) (dec : List Nat → String → Option String)
    (parse : String → Option Json) (p enc : String) :
    (fs p = none → load_json fs dec parse p enc = .error .notFound) ∧
    (∀ bytes, fs p = some bytes → dec bytes enc = none →
      load_json fs dec parse p enc = .error .parseError) ∧
    (∀ bytes text, fs p = some bytes → dec bytes enc = some text →
      parse text = none →
      load_json fs dec parse p enc = .error .parseError) := by
  refine ⟨fun h => ?_, fun bytes h1 h2 => ?_, fun bytes text h1 h2 h3 => ?_⟩
  · simp [load_json, h]
  · simp [load_json, h1, h2]
  · simp [load_json, h1, h2, h3]

/-- Witness for C7 at concrete oracles: a missing file, an undecodable
file, and a file with unparseable content. -/
theorem load_json_failure_cases_witness :
    load_json (fun _ => none) (fun _ _ => none) (fun _ => none)
      "conf.json" "utf-8" = .error .notFound ∧
    load_json (fun _ => some [255]) (fun _ _ => none) (fun _ => none)
      "conf.json" "utf-8" = .error .parseError ∧
    load_json (fun _ => some [123]) (fun _ _ => some "\x7b") (fun _ => none)
      "conf.json" "utf-8" = .error .parseError :=
  ⟨(load_json_failure_cases (fun _ => none) (fun _ _ => none) (fun _ => none)
      "conf.json" "utf-8").1 rfl,
   (load_json_failure_cases (fun _ => some [255]) (fun _ _ => none) (fun _ => none)
      "conf.json" "utf-8").2.1 [255] rfl rfl,
   (load_json_failure_cases (fun _ => some [123]) (fun _ _ => some "\x7b") (fun _ => none)
      "conf.json" "utf-8").2.2 [123] "\x7b" rfl rfl rfl⟩

/-- C8: for every file holding valid structured data, `load_json` returns
exactly the value the parser produced from the file's content — key set,
values and key order included, since `Json.obj` carries the ordered
association list — and re-loading the same file yields the same output
(the embedding is a pure function of its oracles). -/
theorem load_json_success_exact
    (fs : String → Option (List Nat)) (dec : List Nat → String → Option String)
    (parse : String → Option Json) (p enc : String)
    (bytes : List Nat) (text : String) (j : Json)
    (h1 : fs p = some bytes) (h2 : dec bytes enc = some text)
    (h3 : parse text = some j) :
    load_json fs dec parse p enc = .ok j ∧
    load_json fs dec parse p enc = load_json fs dec parse p enc := by
  refine ⟨?_, rfl⟩
  simp [load_json, h1, h2, h3]

/-- Witness for C8 at a concrete one-key object. -/
theorem load_json_success_exact_witness :
    load_json (fun _ => some [1]) (fun _ _ => some "ok")
      (fun _ => some (.obj [("k", .num 1)])) "conf.json" "utf-8" =
      .ok (.obj [("k", .num 1)]) :=
  (load_json_success_exact (fun _ => some [1]) (fun _ _ => some "ok")
    (fun _ => some (.obj [("k", .num 1)])) "conf.json" "utf-8"
    [1] "ok" (.obj [("k", .num 1)]) rfl rfl rfl).1

/-! ### Claims about `upload_files_to_owncloud` -/

/-- C9: if establishing the authenticated session fails, the whole
operation aborts with that error: the trace holds the login attempt only
— no mkdir and no put was attempted — and the remote endpoint is
unchanged, so no file is uploaded before login has succeeded. -/
theorem upload_login_failure_aborts {ε ρ : Type} (b : OcBehavior ε ρ)
    (file_list : List String) (user pw folder : String)
    (remote0 : List String) (e : ε)
    (h : b.login user pw = .error e) :
    upload_files_to_owncloud b file_list user pw folder remote0 =
      (.raised e, [.login user pw], remote0) := by
  unfold upload_files_to_owncloud
  rw [h]

/-- Witness for C9: a client whose login always fails. -/
theorem upload_login_failure_aborts_witness :
    upload_files_to_owncloud
      (⟨fun _ _ => .error "bad credentials", fun _ => .ok (), fun _ _ => .ok 0⟩ :
        OcBehavior String Nat)
      ["/tmp/a.txt"] "u" "p" "pfp-data" [] =
      (.raised "bad credentials", [.login "u" "p"], []) :=
  upload_login_failure_aborts
    (⟨fun _ _ => .error "bad credentials", fun _ => .ok (), fun _ _ => .ok 0⟩ :
      OcBehavior String Nat)
    ["/tmp/a.txt"] "u" "p" "pfp-data" [] "bad credentials" rfl

/-- C10: on an empty file list (with login succeeding), the function
still performs the login and the suppressed mkdir attempt, uploads
nothing, and fails at `return result` with an `UnboundLocalError`
because the loop body that binds `result` never ran: it neither returns
a result nor raises an upload-related error. -/
theorem upload_empty_list_unbound_local {ε ρ : Type} (b : OcBehavior ε ρ)
    (user pw folder : String) (remote0 : List String)
    (h : b.login user pw = .ok ()) :
    upload_files_to_owncloud b [] user pw folder remote0 =
      (.unboundLocal, [.login user pw, .mkdir folder], remote0) := by
  rw [upload_unfold_ok b [] user pw folder remote0 h]
  rfl

/-- Witness for C10: an all-succeeding client on an empty batch. -/
theorem upload_empty_list_unbound_local_witness :
    upload_files_to_owncloud
      (⟨fun _ _ => .ok (), fun _ => .ok (), fun _ _ => .ok 0⟩ : OcBehavior String Nat)
      [] "u" "p" "pfp-data" [] =
      (.unboundLocal, [.login "u" "p", .mkdir "pfp-data"], []) :=
  upload_empty_list_unbound_local
    (⟨fun _ _ => .ok (), fun _ => .ok (), fun _ _ => .ok 0⟩ : OcBehavior String Nat)
    "u" "p" "pfp-data" [] rfl

/-- C2: the outcome of the mkdir step is unconditionally suppressed —
the whole run is unchanged under an arbitrary replacement of the mkdir
behaviour (already exists, permission denied, transient fault, or
success), and when login succeeds the operation always proceeds to the
per-file upload loop. -/
theorem upload_mkdir_failure_suppressed {ε ρ : Type}
    (lg : String → String → Except ε Unit) (m₁ m₂ : String → Except ε Unit)
    (pt : String → String → Except ε ρ) (file_list : List String)
    (user pw folder : String) (remote0 : List String) :
    upload_files_to_owncloud ⟨lg, m₁, pt⟩ file_list user pw folder remote0 =
      upload_files_to_owncloud ⟨lg, m₂, pt⟩ file_list user pw folder remote0 ∧
    (lg user pw = .ok () →
      upload_files_to_owncloud ⟨lg, m₁, pt⟩ file_list user pw folder remote0 =
        put_loop pt folder file_list none
          [.login user pw, .mkdir folder] remote0) := by
  constructor
  · unfold upload_files_to_owncloud
    cases lg user pw <;> rfl
  · intro h
    exact upload_unfold_ok ⟨lg, m₁, pt⟩ file_list user pw folder remote0 h

/-- Witness for C2: a failing and a succeeding mkdir give the same run,
which proceeds to the upload loop. -/
theorem upload_mkdir_failure_suppressed_witness :
    upload_files_to_owncloud
      (⟨fun _ _ => .ok (), fun _ => .error "folder exists", fun _ _ => .ok 7⟩ :
        OcBehavior String Nat)
      ["/tmp/a.txt"] "u" "p" "pfp-data" [] =
      upload_files_to_owncloud
        (⟨fun _ _ => .ok (), fun _ => .ok (), fun _ _ => .ok 7⟩ :
          OcBehavior String Nat)
        ["/tmp/a.txt"] "u" "p" "pfp-data" [] ∧
    upload_files_to_owncloud
      (⟨fun _ _ => .ok (), fun _ => .error "folder exists", fun _ _ => .ok 7⟩ :
        OcBehavior String Nat)
      ["/tmp/a.txt"] "u" "p" "pfp-data" [] =
      put_loop (fun _ _ => .ok 7) "pfp-data" ["/tmp/a.txt"] none
        [.login "u" "p", .mkdir "pfp-data"] [] :=
  ⟨(upload_mkdir_failure_suppressed (fun _ _ => .ok ())
      (fun _ => .error "folder exists") (fun _ => .ok ()) (fun _ _ => .ok 7)
      ["/tmp/a.txt"] "u" "p" "pfp-data" []).1,
   (upload_mkdir_failure_suppressed (fun _ _ => .ok ())
      (fun _ => .error "folder exists") (fun _ => .ok ()) (fun _ _ => .ok 7)
      ["/tmp/a.txt"] "u" "p" "pfp-data" []).2 rfl⟩

/-- Running the loop on a segment of files whose puts all succeed only
extends the trace and the remote state; the loop then continues on the
remaining files with some rebound `result`. -/
theorem put_loop_seg {ε ρ : Type} (put : String → String → Except ε ρ)
    (collection : String) :
    ∀ (pre : List String),
      (∀ y ∈ pre, ∃ r, put (owncloud_name collection y) y = .ok r) →
      ∀ (rest : List String) (acc : Option ρ) (tr : List OcEvent)
        (remote : List String),
      ∃ acc', put_loop put collection (pre ++ rest) acc tr remote =
        put_loop put collection rest acc'
          (tr ++ pre.map (put_event collection))
          (pre.foldl
            (fun rem y => remote_after_put (owncloud_name collection y) rem)
            remote) := by
  intro pre
  induction pre with
  | nil => exact fun _ rest acc tr remote => ⟨acc, by simp⟩
  | cons y ys ih =>
    intro h rest acc tr remote
    obtain ⟨r, hr⟩ := h y (List.mem_cons_self y ys)
    obtain ⟨acc', hacc⟩ := ih (fun z hz => h z (List.mem_cons_of_mem y hz))
      rest (some r) (tr ++ [put_event collection y])
      (remote_after_put (owncloud_name collection y) remote)
    refine ⟨acc', ?_⟩
    rw [List.cons_append]
    simp only [put_loop, hr]
    rw [hacc]
    simp

/-- Running the loop on files whose puts all succeed (with given results)
appends every put to the trace and the remote state and returns the last
result (or what `result` held before, when there was no file). -/
theorem put_loop_all_ok {ε ρ : Type} (put : String → String → Except ε ρ)
    (collection : String) :
    ∀ {files : List String} {rs : List ρ},
      List.Forall₂
        (fun y rr => put (owncloud_name collection y) y = .ok rr) files rs →
      ∀ (acc : Option ρ) (tr : List OcEvent) (remote : List String),
      put_loop put collection files acc tr remote =
        (return_result (rs.foldl (fun _ rr => some rr) acc),
         tr ++ files.map (put_event collection),
         files.foldl
           (fun rem y => remote_after_put (owncloud_name collection y) rem)
           remote) := by
  intro files rs h
  induction h with
  | nil => intro acc tr remote; simp [put_loop]
  | @cons y r ys rs' hr _ ih =>
    intro acc tr remote
    simp only [put_loop, hr]
    rw [ih]
    simp

/-- A name just put is on the remote endpoint. -/
theorem mem_remote_after_put_self (n : String) (remote : List String) :
    n ∈ remote_after_put n remote := by
  unfold remote_after_put
  split
  · assumption
  · simp

/-- A put never removes an object from the remote endpoint. -/
theorem mem_remote_after_put_mono (m n : String) (remote : List String)
    (h : m ∈ remote) : m ∈ remote_after_put n remote := by
  unfold remote_after_put
  split
  · exact h
  · exact List.mem_append_left _ h

/-- A sequence of puts never removes an object from the remote endpoint. -/
theorem mem_foldl_remote (collection : String) (l : List String)
    (m : String) (remote : List String) (h : m ∈ remote) :
    m ∈ l.foldl
      (fun rem y => remote_after_put (owncloud_name collection y) rem)
      remote := by
  induction l generalizing remote with
  | nil => exact h
  | cons z zs ih =>
    exact ih _ (mem_remote_after_put_mono m (owncloud_name collection z) remote h)

/-- After putting every file of `l`, the remote name of each of them is
on the remote endpoint. -/
theorem mem_foldl_remote_of_mem (collection : String) (l : List String)
    (y : String) (remote : List String) (hy : y ∈ l) :
    owncloud_name collection y ∈
      l.foldl
        (fun rem y => remote_after_put (owncloud_name collection y) rem)
        remote := by
  induction l generalizing remote with
  | nil => cases hy
  | cons z zs ih =>
    rcases List.mem_cons.mp hy with h | h
    · subst h
      exact mem_foldl_remote collection zs _ _
        (mem_remote_after_put_self _ remote)
    · exact ih _ h

/-- C1: if login succeeds, every put before position `i = pre.length`
succeeds and the put of the file at position `i` raises, the exception
propagates immediately: the trace holds exactly the puts of the files up
to and including position `i` (the later files are never attempted), and
the files before position `i` remain on the remote endpoint — no
rollback occurs. -/
theorem upload_midbatch_failure_propagates {ε ρ : Type} (b : OcBehavior ε ρ)
    (pre : List String) (x : String) (post : List String)
    (user pw folder : String) (remote0 : List String) (e : ε)
    (hlogin : b.login user pw = .ok ())
    (hpre : ∀ y ∈ pre, ∃ r, b.put_file (owncloud_name folder y) y = .ok r)
    (hx : b.put_file (owncloud_name folder x) x = .error e) :
    upload_files_to_owncloud b (pre ++ x :: post) user pw folder remote0 =
      (.raised e,
       [.login user pw, .mkdir folder] ++ (pre ++ [x]).map (put_event folder),
       pre.foldl
         (fun rem y => remote_after_put (owncloud_name folder y) rem)
         remote0) ∧
    ∀ y ∈ pre, owncloud_name folder y ∈
      (upload_files_to_owncloud b (pre ++ x :: post) user pw folder remote0).2.2 := by
  have hmain : upload_files_to_owncloud b (pre ++ x :: post) user pw folder remote0 =
      (.raised e,
       [.login user pw, .mkdir folder] ++ (pre ++ [x]).map (put_event folder),
       pre.foldl
         (fun rem y => remote_after_put (owncloud_name folder y) rem)
         remote0) := by
    rw [upload_unfold_ok b (pre ++ x :: post) user pw folder remote0 hlogin]
    obtain ⟨acc', hacc⟩ := put_loop_seg b.put_file folder pre hpre (x :: post)
      none [.login user pw, .mkdir folder] remote0
    rw [hacc]
    simp only [put_loop, hx]
    simp
  refine ⟨hmain, fun y hy => ?_⟩
  rw [hmain]
  exact mem_foldl_remote_of_mem folder pre y remote0 hy

/-- The client used to witness C1: the put of `f2.txt` raises, every
other call succeeds. -/
def wFailB : OcBehavior String Nat :=
  ⟨fun _ _ => .ok (), fun _ => .error "already exists",
   fun name _ => if name = "pfp-data/f2.txt" then .error "upload failed" else .ok 1⟩

/-- Witness for C1: in a three-file batch whose second put fails, the
run raises, has attempted exactly the first two puts, and leaves the
first file on the remote endpoint. -/
theorem upload_midbatch_failure_propagates_witness :
    upload_files_to_owncloud wFailB
      ["/tmp/f1.txt", "/tmp/f2.txt", "/tmp/f3.txt"] "u" "p" "pfp-data" [] =
      (.raised "upload failed",
       [.login "u" "p", .mkdir "pfp-data",
        .put "pfp-data/f1.txt" "/tmp/f1.txt",
        .put "pfp-data/f2.txt" "/tmp/f2.txt"],
       ["pfp-data/f1.txt"]) ∧
    "pfp-data/f1.txt" ∈
      (upload_files_to_owncloud wFailB
        ["/tmp/f1.txt", "/tmp/f2.txt", "/tmp/f3.txt"] "u" "p" "pfp-data" []).2.2 := by
  have h := upload_midbatch_failure_propagates wFailB
    ["/tmp/f1.txt"] "/tmp/f2.txt" ["/tmp/f3.txt"] "u" "p" "pfp-data" []
    "upload failed" rfl
    (by
      intro y hy
      rw [List.mem_singleton] at hy
      subst hy
      exact ⟨1, rfl⟩)
    rfl
  refine ⟨?_, h.2 "/tmp/f1.txt" (List.mem_singleton.mpr rfl)⟩
  exact h.1

/-- C3: if login succeeds and every put succeeds, the files are processed
in input order with remote names `folder/<basename>` (one trace entry per
file, in order, all of them reaching the remote endpoint) and the
operation returns only the outcome of the last file's put — the results
of all earlier puts do not appear in the run's result. -/
theorem upload_all_ok_returns_last {ε ρ : Type} (b : OcBehavior ε ρ)
    (files : List String) (x : String) (rs : List ρ) (r : ρ)
    (user pw folder : String) (remote0 : List String)
    (hlogin : b.login user pw = .ok ())
    (hputs : List.Forall₂
      (fun y rr => b.put_file (owncloud_name folder y) y = .ok rr)
      (files ++ [x]) (rs ++ [r])) :
    upload_files_to_owncloud b (files ++ [x]) user pw folder remote0 =
      (.ok r,
       [.login user pw, .mkdir folder] ++ (files ++ [x]).map (put_event folder),
       (files ++ [x]).foldl
         (fun rem y => remote_after_put (owncloud_name folder y) rem)
         remote0) := by
  rw [upload_unfold_ok b (files ++ [x]) user pw folder remote0 hlogin]
  rw [put_loop_all_ok b.put_file folder hputs none
    [.login user pw, .mkdir folder] remote0]
  rw [List.foldl_append]
  simp [return_result]

/-- The all-succeeding client used to witness C3: each put returns the
pair of its arguments, so the results of distinct files differ. -/
def wOkB : OcBehavior String (String × String) :=
  ⟨fun _ _ => .ok (), fun _ => .error "already exists",
   fun name path => .ok (name, path)⟩

/-- Witness for C3: a three-file batch where every put succeeds returns
the third put's outcome only, with the three puts traced in input
order. -/
theorem upload_all_ok_returns_last_witness :
    upload_files_to_owncloud wOkB
      ["/tmp/f1.txt", "/tmp/f2.txt", "/tmp/f3.txt"] "u" "p" "pfp-data" [] =
      (.ok ("pfp-data/f3.txt", "/tmp/f3.txt"),
       [.login "u" "p", .mkdir "pfp-data",
        .put "pfp-data/f1.txt" "/tmp/f1.txt",
        .put "pfp-data/f2.txt" "/tmp/f2.txt",
        .put "pfp-data/f3.txt" "/tmp/f3.txt"],
       ["pfp-data/f1.txt", "pfp-data/f2.txt", "pfp-data/f3.txt"]) := by
  have h := upload_all_ok_returns_last wOkB
    ["/tmp/f1.txt", "/tmp/f2.txt"] "/tmp/f3.txt"
    [("pfp-data/f1.txt", "/tmp/f1.txt"), ("pfp-data/f2.txt", "/tmp/f2.txt")]
    ("pfp-data/f3.txt", "/tmp/f3.txt") "u" "p" "pfp-data" [] rfl
    (.cons rfl (.cons rfl (.cons rfl .nil)))
  simpa using h

/-! ### Claims about `gsheet_to_df` -/

/-- Splitting a list that does not contain the separator yields the one
piece. -/
theorem splitChar_eq_of_not_mem (c : Char) (l : List Char) (h : c ∉ l) :
    splitChar c l = [l] := by
  induction l with
  | nil => rfl
  | cons a as ih =>
    rw [List.mem_cons, not_or] at h
    simp only [splitChar]
    rw [if_neg (fun hac => h.1 hac.symm), ih h.2]

/-- Splitting a list followed by one trailing separator yields the piece
and one empty piece. -/
theorem splitChar_append_sep (c : Char) (l : List Char) (h : c ∉ l) :
    splitChar c (l ++ [c]) = [l, []] := by
  induction l with
  | nil => simp [splitChar]
  | cons a as ih =>
    rw [List.mem_cons, not_or] at h
    rw [List.cons_append]
    simp only [splitChar]
    rw [if_neg (fun hac => h.1 hac.symm), ih h.2]

/-- The lines of a body holding one newline-terminated non-blank header
line and nothing else. -/
theorem csv_lines_header_only (hdr : String) (h1 : hdr ≠ "")
    (h2 : newline ∉ hdr.toList) :
    csv_lines (hdr ++ "\n") = [hdr] := by
  obtain ⟨l⟩ := hdr
  have htl : (String.mk l ++ "\n").toList = l ++ [newline] := rfl
  unfold csv_lines split_on_char
  rw [htl, splitChar_append_sep newline l h2]
  simp [h1]

/-- C5: the run of `gsheet_to_df` requests exactly the one URL built from
the fixed base, the sheet id and `&output=csv`, and its result is the
CSV parse of whatever body that URL returned: two servers whose bodies at
that URL agree give identical runs even when their status codes (e.g. a
404) and their bodies at every other URL differ — no HTTP error is ever
raised. -/
theorem gsheet_single_get_status_ignored (http₁ http₂ : String → HttpResponse)
    (sheet_id : String)
    (h : (http₁ (gsheet_url sheet_id)).content =
      (http₂ (gsheet_url sheet_id)).content) :
    gsheet_to_df http₁ sheet_id = gsheet_to_df http₂ sheet_id ∧
    (gsheet_to_df http₁ sheet_id).2 = [gsheet_url sheet_id] ∧
    (gsheet_to_df http₁ sheet_id).1 =
      pd_read_csv (http₁ (gsheet_url sheet_id)).content := by
  refine ⟨?_, rfl, rfl⟩
  show (pd_read_csv (http₁ (gsheet_url sheet_id)).content, [gsheet_url sheet_id]) =
    (pd_read_csv (http₂ (gsheet_url sheet_id)).content, [gsheet_url sheet_id])
  rw [h]

/-- Witness for C5: a 404 server and a 200 server with the same body. -/
theorem gsheet_single_get_status_ignored_witness :
    gsheet_to_df (fun _ => ⟨404, "a\n1\n"⟩) "abc" =
      gsheet_to_df (fun _ => ⟨200, "a\n1\n"⟩) "abc" ∧
    (gsheet_to_df (fun _ => ⟨404, "a\n1\n"⟩) "abc").2 = [gsheet_url "abc"] ∧
    (gsheet_to_df (fun _ => ⟨404, "a\n1\n"⟩) "abc").1 =
      pd_read_csv ((fun (_ : String) => (⟨404, "a\n1\n"⟩ : HttpResponse))
        (gsheet_url "abc")).content :=
  gsheet_single_get_status_ignored (fun _ => ⟨404, "a\n1\n"⟩)
    (fun _ => ⟨200, "a\n1\n"⟩) "abc" rfl

/-- C6: for the body `"a,b\n1,2\n3,4\n"`, the fetch returns the two rows
`{a: 1, b: 2}` then `{a: 3, b: 4}` in content order under the columns
`[a, b]` taken from the first line, having requested the one expected
URL. -/
theorem gsheet_two_row_example :
    gsheet_to_df (fun _ => ⟨200, "a,b\n1,2\n3,4\n"⟩) "sheetid" =
      (.ok ⟨["a", "b"], [[.int 1, .int 2], [.int 3, .int 4]]⟩,
       ["https://docs.google.com/spreadsheet/ccc?key=sheetid&output=csv"]) := by
  rfl

/-- Counterexample to C4: on a body holding a header line only, the fetch
returns a dataset (the empty one under columns `[a, b]`) and does not
signal `EmptyResult`. -/
theorem gsheet_header_only_counterexample :
    (gsheet_to_df (fun _ => ⟨200, "a,b\n"⟩) "sheetid").1 =
      .ok ⟨["a", "b"], []⟩ ∧
    (gsheet_to_df (fun _ => ⟨200, "a,b\n"⟩) "sheetid").1 ≠
      .error .emptyData := by
  refine ⟨rfl, fun h => ?_⟩
  rw [show (gsheet_to_df (fun _ => ⟨200, "a,b\n"⟩) "sheetid").1 =
    .ok ⟨["a", "b"], []⟩ from rfl] at h
  exact Except.noConfusion h

/-- C4 amended: the fetch signals `EmptyResult` when the decoded body is
entirely empty; a body holding a header line only (no data rows) instead
returns a dataset with those columns and zero rows. -/
theorem gsheet_empty_body_vs_header_only (http : String → HttpResponse)
    (sheet_id : String) (hdr : String) :
    ((http (gsheet_url sheet_id)).content = "" →
      (gsheet_to_df http sheet_id).1 = .error .emptyData) ∧
    (hdr ≠ "" → newline ∉ hdr.toList →
      (http (gsheet_url sheet_id)).content = hdr ++ "\n" →
      (gsheet_to_df http sheet_id).1 = .ok ⟨split_on_char ',' hdr, []⟩) := by
  constructor
  · intro h
    show pd_read_csv (http (gsheet_url sheet_id)).content = _
    rw [h]
    rfl
  · intro h1 h2 h3
    show pd_read_csv (http (gsheet_url sheet_id)).content = _
    rw [h3]
    simp [pd_read_csv, csv_lines_header_only hdr h1 h2, type_rows]

/-- Witness for the amended C4: an empty body signals `EmptyResult`, a
header-only body returns the empty dataset. -/
theorem gsheet_empty_body_vs_header_only_witness :
    (gsheet_to_df (fun _ => ⟨500, ""⟩) "sheetid").1 = .error .emptyData ∧
    (gsheet_to_df (fun _ => ⟨200, "x,y\n"⟩) "sheetid").1 =
      .ok ⟨split_on_char ',' "x,y", []⟩ :=
  ⟨(gsheet_empty_body_vs_header_only (fun _ => ⟨500, ""⟩) "sheetid" "x").1 rfl,
   (gsheet_empty_body_vs_header_only (fun _ => ⟨200, "x,y\n"⟩) "sheetid" "x,y").2
     (by decide) (by decide) rfl⟩
